import Mathlib

/-!
Verification development for the express better-auth starter repository.

The definitions below are shallow embeddings of the TypeScript sources:
JavaScript objects serialized as JSON become `JsonVal`, fallible code
becomes `Except`, `undefined`-able environment lookups become
`Option String`, and the JavaScript truthiness idiom `a || b` on strings
(empty string is falsy) becomes `jsOr` / `jsOrOpt`.
-/

namespace ExpressApp

/-- A JSON value as produced by res.json(...): strings, integers, booleans
and objects (field lists).  Numeric payloads that the claims never inspect
(uptime, timestamps) are modelled as integers. -/
inductive JsonVal where
  | str (s : String)
  | num (n : Int)
  | bool (b : Bool)
  | obj (fields : List (String × JsonVal))

/-- Field lookup in a JSON object: first binding of the key wins. -/
def findField : List (String × JsonVal) → String → Option JsonVal
  | [], _ => none
  | (k, v) :: tl, key => if k = key then some v else findField tl key

/-- Look a field up in a JSON value; non-objects have no fields. -/
def JsonVal.getField : JsonVal → String → Option JsonVal
  | JsonVal.obj fields, key => findField fields key
  | _, _ => none

/-- An HTTP reply as emitted by res.status(code).json(body). -/
structure HttpResponse where
  statusCode : Int
  body : JsonVal

/-- JavaScript `a || d` where `a` is a possibly-undefined string and `d` a
string: undefined and the empty string are falsy. -/
def jsOr (a : Option String) (d : String) : String :=
  match a with
  | some s => if s = "" then d else s
  | none => d

/-- JavaScript `a || b` where both operands are possibly-undefined strings. -/
def jsOrOpt (a b : Option String) : Option String :=
  match a with
  | some s => if s = "" then b else some s
  | none => b

/-! ## Auth middleware (unnamed/part_001, authenticateUser) -/

/-- The normalized identity the middleware attaches to req.user. -/
structure SessionUser where
  id : String
  email : String
  name : String

/-- The session object returned by auth.api.getSession; its user sub-object
may be absent (falsy). -/
structure Session where
  user : Option SessionUser

/-- The ErrorResponse class of the response handler: a message and a status
code (this is the application error type the middleware throws and
forwards). -/
structure ErrorResponse where
  message : String
  statusCode : Int

/-- An exception thrown during session resolution: either an instance of the
application ErrorResponse class, or any other exception (carrying arbitrary
detail). -/
inductive ThrownError where
  | errorResponse (r : ErrorResponse)
  | other (details : String)

/-- What the await of auth.api.getSession produces: a thrown exception, or a
possibly-null session. -/
abbrev GetSessionResult := Except ThrownError (Option Session)

/-- How the middleware terminates: next() after attaching the identity, or
next(error) with an ErrorResponse. -/
inductive MiddlewareOutcome where
  | proceed (user : SessionUser)
  | fail (e : ErrorResponse)

/-- The fixed error built by new ErrorResponse("Unauthorized access", 401). -/
def unauthorizedError : ErrorResponse :=
  { message := "Unauthorized access", statusCode := 401 }

/-- authenticateUser: resolve the session; if it or its user sub-object is
absent, throw the fixed 401 ErrorResponse.  The catch block forwards an
ErrorResponse unchanged and replaces any other exception by the fixed 401.
The thrown 401 from the null-session check is itself an ErrorResponse, so
the catch forwards it. -/
def authenticateUser (sessionResult : GetSessionResult) : MiddlewareOutcome :=
  match sessionResult with
  | Except.error e =>
      match e with
      | ThrownError.errorResponse r => MiddlewareOutcome.fail r
      | ThrownError.other _ => MiddlewareOutcome.fail unauthorizedError
  | Except.ok sessionOpt =>
      match sessionOpt with
      | none => MiddlewareOutcome.fail unauthorizedError
      | some session =>
          match session.user with
          | none => MiddlewareOutcome.fail unauthorizedError
          | some u => MiddlewareOutcome.proceed u

/-! ## Health routes (routes/health.routes.ts) -/

/-- The ambient state a health handler reads: the mongoose connection
readyState (1 means connected), process uptime, current time, and the
NODE_ENV variable. -/
structure ServerState where
  readyState : Nat
  uptime : Int
  timestamp : Int
  nodeEnv : Option String

/-- GET /health: reports uptime, a message, timestamp, environment and the
database state; 200 when connected, 503 otherwise.  The try body only reads
readyState, which is total here, so the catch branch is unreachable in the
embedding. -/
def healthRoot (st : ServerState) : HttpResponse :=
  let database := if st.readyState = 1 then "connected" else "disconnected"
  let statusCode : Int := if database = "connected" then 200 else 503
  ⟨statusCode,
    JsonVal.obj [("uptime", JsonVal.num st.uptime), ("message", JsonVal.str "OK"),
      ("timestamp", JsonVal.num st.timestamp),
      ("environment", JsonVal.str (jsOr st.nodeEnv "development")),
      ("services", JsonVal.obj [("database", JsonVal.str database)])]⟩

/-- GET /health/live: the handler body references neither the request nor any
dependency state. -/
def healthLive (_st : ServerState) : HttpResponse :=
  ⟨200, JsonVal.obj [("status", JsonVal.str "alive")]⟩

/-- GET /health/ready: the try block computes dbReady from readyState; the
input is the result of that computation, Except.error standing for a thrown
exception reaching the catch block. -/
def healthReady (check : Except Unit Nat) : HttpResponse :=
  match check with
  | Except.ok readyState =>
      if readyState = 1 then ⟨200, JsonVal.obj [("status", JsonVal.str "ready")]⟩
      else
        ⟨503, JsonVal.obj [("status", JsonVal.str "not ready"),
          ("reason", JsonVal.str "database not connected")]⟩
  | Except.error _ =>
      ⟨503, JsonVal.obj [("status", JsonVal.str "not ready"),
        ("error", JsonVal.str "health check failed")]⟩

/-! ## Response Envelope -/

/-- Modelled from the spec: the Response Envelope of section 4.2 (the
responseHandler module itself is not among the given source files; only its
ErrorResponse class appears, imported by the middleware).  A Success result
carries a message, a status code the class defaults to 200, and an optional
data payload, serializing with success true; an Error result carries a
message, a caller-supplied status code and optional detail, serializing with
success false. -/
inductive ApiResponseModel where
  | success (message : String) (statusCode : Int) (data : Option JsonVal)
  | error (message : String) (statusCode : Int) (data : Option JsonVal)

/-- The status code a result carries. -/
def ApiResponseModel.statusCode : ApiResponseModel → Int
  | ApiResponseModel.success _ c _ => c
  | ApiResponseModel.error _ c _ => c

/-- The success flag a result serializes. -/
def ApiResponseModel.successFlag : ApiResponseModel → Bool
  | ApiResponseModel.success _ _ _ => true
  | ApiResponseModel.error _ _ _ => false

/-- Modelled from the spec: serialization of an envelope to
success / message / statusCode and an optional data field. -/
def serializeEnvelope (r : ApiResponseModel) : HttpResponse :=
  match r with
  | ApiResponseModel.success m c d =>
      ⟨c, JsonVal.obj ([("success", JsonVal.bool true), ("message", JsonVal.str m),
        ("statusCode", JsonVal.num c)] ++
        (match d with | some v => [("data", v)] | none => []))⟩
  | ApiResponseModel.error m c d =>
      ⟨c, JsonVal.obj ([("success", JsonVal.bool false), ("message", JsonVal.str m),
        ("statusCode", JsonVal.num c)] ++
        (match d with | some v => [("data", v)] | none => []))⟩

/-- The status-code discipline of the spec, sections 4.2 and 7: a Success
result carries a code below 400 (the class defaults to 200) and an Error
result a caller-supplied code from the 400..500 taxonomy. -/
def taxonomyStatus (r : ApiResponseModel) : Prop :=
  match r with
  | ApiResponseModel.success _ c _ => c < 400
  | ApiResponseModel.error _ c _ => 400 ≤ c

/-! ## Database connector (unnamed/part_000, connectDb) -/

/-- How the startup connection ends: the await succeeded, or the catch block
ran process.exit with the given code. -/
inductive ConnectOutcome where
  | connected
  | exited (code : Int)

/-- connectDb: one await of mongoose.connect inside try/catch; the input is
the result of that single attempt (there is no loop in the source), and the
catch block exits the process with code 1. -/
def connectDb (connectAttempt : Except String Unit) : ConnectOutcome :=
  match connectAttempt with
  | Except.ok _ => ConnectOutcome.connected
  | Except.error _ => ConnectOutcome.exited 1

/-! ## Environment loaders -/

/-- The message of the Error thrown when a required variable is missing. -/
def envErrMsg (key : String) : String :=
  "Environment variable " ++ key ++ " is required but not defined"

/-- getEnvVariable of utils/envConfig.ts: the default parameter is optional
(undefined when not passed); value is env[key] || defaultValue and a falsy
value (undefined or empty) throws. -/
def getEnvVariableEnvConfig (environ : String → Option String) (key : String)
    (defaultValue : Option String) : Except String String :=
  match jsOrOpt (environ key) defaultValue with
  | none => Except.error (envErrMsg key)
  | some s => if s = "" then Except.error (envErrMsg key) else Except.ok s

/-- getEnvVariable of config/env.ts (the second loader, concatenated into
index.ts in the sources): the default parameter defaults to the empty
string, so value is always a string and an empty value throws. -/
def getEnvVariableEnv (environ : String → Option String) (key : String)
    (defaultValue : String) : Except String String :=
  let value := jsOr (environ key) defaultValue
  if value = "" then Except.error (envErrMsg key) else Except.ok value

/-- SMTP_FROM of utils/envConfig.ts: process.env.SMTP_FROM falls back
silently to process.env.SMTP_USER. -/
def SMTP_FROM_envConfig (environ : String → Option String) : Option String :=
  jsOrOpt (environ "SMTP_FROM") (environ "SMTP_USER")

/-- SMTP_FROM of config/env.ts: a fixed default, no fallback to SMTP_USER. -/
def SMTP_FROM_env (environ : String → Option String) : Except String String :=
  getEnvVariableEnv environ "SMTP_FROM" "noreply@yourapp.com"

/-- The environment variables looked up with no usable default value:
MONGO_URI and BETTER_AUTH_SECRET in utils/envConfig.ts, SMTP_USER,
SMTP_PASS and BETTER_AUTH_SECRET in config/env.ts. -/
def requiredEnvKeys : List String :=
  ["MONGO_URI", "BETTER_AUTH_SECRET", "SMTP_USER", "SMTP_PASS"]

/-- The defaultless lookups both loader modules perform at import time, in
module-evaluation order (index.ts imports config/env.ts first; the app then
pulls in utils/envConfig.ts through the auth helpers), every one of them
before app.listen runs.  A throw anywhere here aborts the chain. -/
def loadRequiredEnv (environ : String → Option String) : Except String Unit :=
  match getEnvVariableEnv environ "SMTP_USER" "" with
  | Except.error m => Except.error m
  | Except.ok _ =>
    match getEnvVariableEnv environ "SMTP_PASS" "" with
    | Except.error m => Except.error m
    | Except.ok _ =>
      match getEnvVariableEnv environ "BETTER_AUTH_SECRET" "" with
      | Except.error m => Except.error m
      | Except.ok _ =>
        match getEnvVariableEnvConfig environ "MONGO_URI" none with
        | Except.error m => Except.error m
        | Except.ok _ =>
          match getEnvVariableEnvConfig environ "BETTER_AUTH_SECRET" none with
          | Except.error m => Except.error m
          | Except.ok _ => Except.ok ()

/-- How startup ends: app.listen bound the port, or the process died to an
uncaught module-load throw before binding it. -/
inductive StartupResult where
  | listening (port : String)
  | failedBeforeBind (msg : String)

/-- startServer of index.ts: module loading (the defaultless env lookups)
happens first; only then does app.listen bind the PORT read with default
5000 from config/env.ts. -/
def startServer (environ : String → Option String) : StartupResult :=
  match loadRequiredEnv environ with
  | Except.error m => StartupResult.failedBeforeBind m
  | Except.ok _ =>
      match getEnvVariableEnv environ "PORT" "5000" with
      | Except.error m => StartupResult.failedBeforeBind m
      | Except.ok p => StartupResult.listening p

/-! ## Auth configuration (helpers/auth/auth.ts) -/

/-- The scalar fields of the emailAndPassword block of the betterAuth
configuration (the sendResetPassword callback is an email hook with no
bearing on the password policy). -/
structure EmailAndPasswordConfig where
  enabled : Bool
  disableSignUp : Bool
  requireEmailVerification : Bool
  minPasswordLength : Nat
  maxPasswordLength : Nat
  autoSignIn : Bool

/-- The emailAndPassword block as declared in helpers/auth/auth.ts. -/
def emailAndPassword : EmailAndPasswordConfig :=
  ⟨true, false, true, 8, 128, true⟩

/-- A sign-up request body as in the spec scenario. -/
structure SignUpRequest where
  email : String
  name : String
  password : String

/-- Whether a sign-up was refused by the policy or a record was created. -/
inductive SignUpOutcome where
  | rejected
  | created (email name : String)

/-- Modelled from the spec: the external auth engine (better-auth, not part
of this repository) enforces the declared password length bounds.  A
password is accepted exactly when its length lies between minPasswordLength
and maxPasswordLength. -/
def passwordPolicyAccepts (cfg : EmailAndPasswordConfig) (password : String) : Bool :=
  decide (cfg.minPasswordLength ≤ password.length ∧ password.length ≤ cfg.maxPasswordLength)

/-- Modelled from the spec: the engine rejects a sign-up violating the
declared policy before creating any user record. -/
def signUpPolicyGate (cfg : EmailAndPasswordConfig) (req : SignUpRequest) : SignUpOutcome :=
  if passwordPolicyAccepts cfg req.password then SignUpOutcome.created req.email req.name
  else SignUpOutcome.rejected

/-! ## getPort (utils/envConfig.ts) -/

/-- Digit-prefix accumulation for parseInt. -/
def digitsToNat (ds : List Char) : Nat :=
  ds.foldl (fun acc c => acc * 10 + (c.toNat - 48)) 0

/-- The optional sign parseInt strips after leading whitespace. -/
def jsStripSign : List Char → Int × List Char
  | '-' :: t => (-1, t)
  | '+' :: t => (1, t)
  | cs => (1, cs)

/-- JavaScript parseInt(s, 10): skip leading whitespace, read an optional
sign, then the longest decimal-digit prefix; no digits means NaN, modelled
as none. -/
def jsParseInt10 (s : String) : Option Int :=
  let trimmed := s.data.dropWhile Char.isWhitespace
  let (sign, rest) := jsStripSign trimmed
  let ds := rest.takeWhile Char.isDigit
  if ds.isEmpty then none else some (sign * (digitsToNat ds : Int))

/-- The message of the Error getPort throws. -/
def portErrMsg (port : String) : String :=
  "Invalid PORT value: " ++ port ++ ". Must be a number between 0 and 65535"

/-- getPort of utils/envConfig.ts: the string checked is
process.env.PORT || the literal 5000; a NaN parse or an out-of-range result
throws, anything else is returned. -/
def getPort (portEnv : Option String) : Except String Int :=
  match jsParseInt10 (jsOr portEnv "5000") with
  | none => Except.error (portErrMsg (jsOr portEnv "5000"))
  | some parsedPort =>
      if parsedPort < 0 ∨ parsedPort > 65535 then
        Except.error (portErrMsg (jsOr portEnv "5000"))
      else Except.ok parsedPort

/-! ## Concrete environments used by witnesses -/

/-- The empty environment: every variable absent. -/
def envEmpty : String → Option String := fun _ => none

/-- An environment with SMTP_FROM unset and SMTP_USER set to a non-default
address. -/
def envC7 : String → Option String :=
  fun k => if k = "SMTP_USER" then some "alice@example.com" else none

/-! ## Helper lemmas -/

/-- A defaultless envConfig lookup of an absent or empty variable throws. -/
lemma getEnvVariableEnvConfig_absent (environ : String → Option String) (key : String)
    (h : environ key = none ∨ environ key = some "") :
    getEnvVariableEnvConfig environ key none = Except.error (envErrMsg key) := by
  rcases h with h | h <;> simp [getEnvVariableEnvConfig, jsOrOpt, h]

/-- A config/env lookup with the empty default of an absent or empty
variable throws. -/
lemma getEnvVariableEnv_absent (environ : String → Option String) (key : String)
    (h : environ key = none ∨ environ key = some "") :
    getEnvVariableEnv environ key "" = Except.error (envErrMsg key) := by
  rcases h with h | h <;> simp [getEnvVariableEnv, jsOr, h]

/-- If the module-load chain succeeded, every defaultless lookup
succeeded. -/
lemma loadRequiredEnv_ok (environ : String → Option String)
    (h : loadRequiredEnv environ = Except.ok ()) :
    (∃ v, getEnvVariableEnv environ "SMTP_USER" "" = Except.ok v) ∧
    (∃ v, getEnvVariableEnv environ "SMTP_PASS" "" = Except.ok v) ∧
    (∃ v, getEnvVariableEnv environ "BETTER_AUTH_SECRET" "" = Except.ok v) ∧
    (∃ v, getEnvVariableEnvConfig environ "MONGO_URI" none = Except.ok v) ∧
    (∃ v, getEnvVariableEnvConfig environ "BETTER_AUTH_SECRET" none = Except.ok v) := by
  unfold loadRequiredEnv at h
  cases h1 : getEnvVariableEnv environ "SMTP_USER" "" with
  | error m => simp [h1] at h
  | ok v1 =>
    simp only [h1] at h
    cases h2 : getEnvVariableEnv environ "SMTP_PASS" "" with
    | error m => simp [h2] at h
    | ok v2 =>
      simp only [h2] at h
      cases h3 : getEnvVariableEnv environ "BETTER_AUTH_SECRET" "" with
      | error m => simp [h3] at h
      | ok v3 =>
        simp only [h3] at h
        cases h4 : getEnvVariableEnvConfig environ "MONGO_URI" none with
        | error m => simp [h4] at h
        | ok v4 =>
          simp only [h4] at h
          cases h5 : getEnvVariableEnvConfig environ "BETTER_AUTH_SECRET" none with
          | error m => simp [h5] at h
          | ok v5 =>
            exact ⟨⟨v1, rfl⟩, ⟨v2, rfl⟩, ⟨v3, rfl⟩, ⟨v4, rfl⟩, ⟨v5, rfl⟩⟩

/-! ## The claims -/

/-- C1: on a null session or any exception during session resolution,
authenticateUser fails with the fixed ErrorResponse
"Unauthorized access" / 401; an exception that is not an ErrorResponse is
replaced by that fixed error, one that is an ErrorResponse is forwarded
unchanged; apart from the forwarded case, every non-proceed outcome is the
fixed 401, never a 500. -/
theorem authenticateUser_401_C1 :
    authenticateUser (Except.ok none) = MiddlewareOutcome.fail unauthorizedError ∧
    unauthorizedError.message = "Unauthorized access" ∧
    unauthorizedError.statusCode = 401 ∧
    (∀ d, authenticateUser (Except.error (ThrownError.other d)) =
      MiddlewareOutcome.fail unauthorizedError) ∧
    (∀ r, authenticateUser (Except.error (ThrownError.errorResponse r)) =
      MiddlewareOutcome.fail r) ∧
    (∀ res : GetSessionResult, (∀ r, res ≠ Except.error (ThrownError.errorResponse r)) →
      (∃ u, authenticateUser res = MiddlewareOutcome.proceed u) ∨
        authenticateUser res = MiddlewareOutcome.fail unauthorizedError) := by
  refine ⟨rfl, rfl, rfl, fun d => rfl, fun r => rfl, ?_⟩
  intro res h
  match res with
  | Except.error (ThrownError.errorResponse r) => exact absurd rfl (h r)
  | Except.error (ThrownError.other d) => exact Or.inr rfl
  | Except.ok none => exact Or.inr rfl
  | Except.ok (some s) =>
      cases hs : s.user with
      | none => exact Or.inr (by simp [authenticateUser, hs])
      | some u => exact Or.inl ⟨u, by simp [authenticateUser, hs]⟩

/-- C2: a session present but with an absent user sub-object makes
authenticateUser behave exactly as on no session: the fixed 401
"Unauthorized access" error, no identity attached. -/
theorem authenticateUser_userless_C2 (s : Session) (h : s.user = none) :
    authenticateUser (Except.ok (some s)) = MiddlewareOutcome.fail unauthorizedError ∧
    authenticateUser (Except.ok (some s)) = authenticateUser (Except.ok none) ∧
    (∀ u, authenticateUser (Except.ok (some s)) ≠ MiddlewareOutcome.proceed u) := by
  have key : authenticateUser (Except.ok (some s)) = MiddlewareOutcome.fail unauthorizedError := by
    simp [authenticateUser, h]
  refine ⟨key, key.trans rfl, fun u hu => ?_⟩
  rw [key] at hu
  exact MiddlewareOutcome.noConfusion hu

/-- Witness for C2 at the session object whose user field is absent. -/
theorem authenticateUser_userless_witness_C2 :
    authenticateUser (Except.ok (some ⟨none⟩)) = MiddlewareOutcome.fail unauthorizedError :=
  (authenticateUser_userless_C2 ⟨none⟩ rfl).1

/-- C3 counterexample: the bodies the three health handlers emit carry no
success field at all (at the connected state and, for the readiness probe,
a successful check), so they are not envelopes whose boolean success agrees
with the status code. -/
theorem health_no_success_cex_C3 :
    (healthLive ⟨1, 0, 0, none⟩).body.getField "success" = none ∧
    (healthRoot ⟨1, 0, 0, none⟩).body.getField "success" = none ∧
    (healthReady (Except.ok 1)).body.getField "success" = none := ⟨rfl, rfl, rfl⟩

/-- C3 amended: a body serialized from the Response Envelope carries a
boolean success field, true exactly for the Success variant, and that flag
equals statusCode < 400 whenever the variant carries a status code on the
side of 400 the taxonomy of section 7 assigns it; the health handlers do
not emit the envelope, their bodies have no success field. -/
theorem envelope_success_agrees_C3 (r : ApiResponseModel) (h : taxonomyStatus r) :
    (serializeEnvelope r).body.getField "success"
      = some (JsonVal.bool (decide ((serializeEnvelope r).statusCode < 400))) ∧
    (∀ r' : ApiResponseModel, (serializeEnvelope r').body.getField "success"
      = some (JsonVal.bool (ApiResponseModel.successFlag r'))) ∧
    (∀ st : ServerState, (healthLive st).body.getField "success" = none ∧
      (healthRoot st).body.getField "success" = none) ∧
    (∀ check : Except Unit Nat, (healthReady check).body.getField "success" = none) := by
  refine ⟨?_, ?_, fun st => ⟨rfl, rfl⟩, ?_⟩
  · cases r with
    | success m c d =>
        have hc : c < 400 := h
        simp [serializeEnvelope, JsonVal.getField, findField, hc]
    | error m c d =>
        have hc : 400 ≤ c := h
        simp [serializeEnvelope, JsonVal.getField, findField, not_lt_of_le hc]
  · intro r'
    cases r' with
    | success m c d => rfl
    | error m c d => rfl
  · intro check
    cases check with
    | ok n => by_cases hn : n = 1 <;> simp [healthReady, hn, JsonVal.getField, findField]
    | error u => rfl

/-- Witness for C3 amended at a Success envelope with the default code
200. -/
theorem envelope_success_witness_C3 :
    (serializeEnvelope (ApiResponseModel.success "OK" 200 none)).body.getField "success"
      = some (JsonVal.bool
          (decide ((serializeEnvelope (ApiResponseModel.success "OK" 200 none)).statusCode
            < 400))) :=
  (envelope_success_agrees_C3 (ApiResponseModel.success "OK" 200 none)
    (show (200 : Int) < 400 by norm_num)).1

/-- C4 counterexample: when the readiness check throws, the handler does
return 503, but its body has no reason field at all (the string sits under
an error key instead), refuting the claim that every non-ready case carries
a non-empty reason. -/
theorem healthReady_exception_cex_C4 :
    (healthReady (Except.error ())).statusCode = 503 ∧
    (healthReady (Except.error ())).body.getField "reason" = none := ⟨rfl, rfl⟩

/-- C4 amended: the readiness probe answers 200 with status ready exactly
when the check yields readyState 1; every other case is 503, with the
non-empty reason "database not connected" when the check completed on a
non-connected state, and with a non-empty error string (no reason field)
when the check threw. -/
theorem healthReady_amended_C4 :
    (∀ check : Except Unit Nat, (healthReady check).statusCode = 200 ↔ check = Except.ok 1) ∧
    healthReady (Except.ok 1) = ⟨200, JsonVal.obj [("status", JsonVal.str "ready")]⟩ ∧
    (∀ n : Nat, n ≠ 1 →
      healthReady (Except.ok n) = ⟨503, JsonVal.obj [("status", JsonVal.str "not ready"),
        ("reason", JsonVal.str "database not connected")]⟩ ∧
      (healthReady (Except.ok n)).body.getField "reason"
        = some (JsonVal.str "database not connected")) ∧
    (healthReady (Except.error ())).statusCode = 503 ∧
    (healthReady (Except.error ())).body.getField "error"
      = some (JsonVal.str "health check failed") := by
  refine ⟨?_, rfl, ?_, rfl, rfl⟩
  · intro check
    cases check with
    | error u => cases u; simp [healthReady]
    | ok n =>
        by_cases hn : n = 1
        · subst hn; simp [healthReady]
        · simp [healthReady, hn]
  · intro n hn
    exact ⟨by simp [healthReady, hn], by simp [healthReady, hn, JsonVal.getField, findField]⟩

/-- C5: the liveness probe answers 200 with body status alive whatever the
server state, and its reply does not depend on that state at all. -/
theorem healthLive_constant_C5 (st st' : ServerState) :
    healthLive st = ⟨200, JsonVal.obj [("status", JsonVal.str "alive")]⟩ ∧
    healthLive st = healthLive st' := ⟨rfl, rfl⟩

/-- C6: the single startup connection attempt ends in process exit with code
1 when it fails — never in a connected state and never in a retry (the
embedding consumes exactly one attempt result) — and in the connected state
when it succeeds. -/
theorem connectDb_failfast_C6 :
    (∀ err : String, connectDb (Except.error err) = ConnectOutcome.exited 1) ∧
    connectDb (Except.ok ()) = ConnectOutcome.connected ∧
    (∀ err : String, connectDb (Except.error err) ≠ ConnectOutcome.connected) :=
  ⟨fun _ => rfl, rfl, fun _ h => ConnectOutcome.noConfusion h⟩

/-- C7: with SMTP_FROM unset, utils/envConfig.ts silently falls back to
SMTP_USER while config/env.ts falls back to the fixed default address, so
for a non-default SMTP_USER the two modules disagree on SMTP_FROM. -/
theorem smtpFrom_divergence_C7 (environ : String → Option String) (u : String)
    (habs : environ "SMTP_FROM" = none) (hu : environ "SMTP_USER" = some u)
    (hne : u ≠ "noreply@yourapp.com") :
    SMTP_FROM_envConfig environ = some u ∧
    SMTP_FROM_env environ = Except.ok "noreply@yourapp.com" ∧
    (∀ w, SMTP_FROM_env environ = Except.ok w → SMTP_FROM_envConfig environ ≠ some w) := by
  have h1 : SMTP_FROM_envConfig environ = some u := by
    simp [SMTP_FROM_envConfig, jsOrOpt, habs, hu]
  have h2 : SMTP_FROM_env environ = Except.ok "noreply@yourapp.com" := by
    simp [SMTP_FROM_env, getEnvVariableEnv, jsOr, habs]
  refine ⟨h1, h2, ?_⟩
  intro w hw heq
  rw [h2] at hw
  cases hw
  rw [h1] at heq
  exact hne (Option.some.inj heq)

/-- Witness for C7 at the concrete environment with SMTP_FROM unset and
SMTP_USER a non-default address: the two loaders yield different values. -/
theorem smtpFrom_divergence_witness_C7 :
    SMTP_FROM_envConfig envC7 = some "alice@example.com" ∧
    SMTP_FROM_env envC7 = Except.ok "noreply@yourapp.com" := by
  have h := smtpFrom_divergence_C7 envC7 "alice@example.com" rfl rfl (by decide)
  exact ⟨h.1, h.2.1⟩

/-- C8: a required variable (one looked up with no usable default in either
loader) that is absent or empty makes its defaultless lookup throw and the
process die before app.listen binds a port; conversely a lookup returns the
environment value whenever that value is non-empty, and the non-empty
default when the variable is absent or empty. -/
theorem requiredEnv_failfast_C8 (environ : String → Option String) (key : String)
    (hreq : key ∈ requiredEnvKeys) (habs : environ key = none ∨ environ key = some "") :
    getEnvVariableEnvConfig environ key none = Except.error (envErrMsg key) ∧
    getEnvVariableEnv environ key "" = Except.error (envErrMsg key) ∧
    (∀ p, startServer environ ≠ StartupResult.listening p) ∧
    (∀ (k v : String) (dA : Option String) (dB : String), environ k = some v → v ≠ "" →
      getEnvVariableEnvConfig environ k dA = Except.ok v ∧
      getEnvVariableEnv environ k dB = Except.ok v) ∧
    (∀ (k d : String), d ≠ "" → (environ k = none ∨ environ k = some "") →
      getEnvVariableEnvConfig environ k (some d) = Except.ok d ∧
      getEnvVariableEnv environ k d = Except.ok d) := by
  refine ⟨getEnvVariableEnvConfig_absent environ key habs,
    getEnvVariableEnv_absent environ key habs, ?_, ?_, ?_⟩
  · intro p hcontra
    have hok : loadRequiredEnv environ = Except.ok () := by
      unfold startServer at hcontra
      cases hl : loadRequiredEnv environ with
      | error m => simp [hl] at hcontra
      | ok u => cases u; rfl
    have hall := loadRequiredEnv_ok environ hok
    simp [requiredEnvKeys] at hreq
    rcases hreq with h | h | h | h <;> subst h
    · rcases hall.2.2.2.1 with ⟨v, hv⟩
      rw [getEnvVariableEnvConfig_absent environ _ habs] at hv
      exact Except.noConfusion hv
    · rcases hall.2.2.2.2 with ⟨v, hv⟩
      rw [getEnvVariableEnvConfig_absent environ _ habs] at hv
      exact Except.noConfusion hv
    · rcases hall.1 with ⟨v, hv⟩
      rw [getEnvVariableEnv_absent environ _ habs] at hv
      exact Except.noConfusion hv
    · rcases hall.2.1 with ⟨v, hv⟩
      rw [getEnvVariableEnv_absent environ _ habs] at hv
      exact Except.noConfusion hv
  · intro k v dA dB hk hv
    exact ⟨by simp [getEnvVariableEnvConfig, jsOrOpt, hk, hv],
      by simp [getEnvVariableEnv, jsOr, hk, hv]⟩
  · intro k d hd hk
    rcases hk with hk | hk <;>
      exact ⟨by simp [getEnvVariableEnvConfig, jsOrOpt, hk, hd],
        by simp [getEnvVariableEnv, jsOr, hk, hd]⟩

/-- Witness for C8 at the empty environment and the required key MONGO_URI:
startup never reaches a listening state. -/
theorem requiredEnv_failfast_witness_C8 :
    startServer envEmpty ≠ StartupResult.listening "5000" :=
  (requiredEnv_failfast_C8 envEmpty "MONGO_URI" (by simp [requiredEnvKeys])
    (Or.inl rfl)).2.2.1 "5000"

/-- C9: the declared policy bounds password length to 8..128, so the length-1
password of the spec scenario is rejected by the policy gate before any
record is created. -/
theorem passwordPolicy_C9 :
    emailAndPassword.minPasswordLength = 8 ∧
    emailAndPassword.maxPasswordLength = 128 ∧
    (∀ p : String, passwordPolicyAccepts emailAndPassword p
      = decide (8 ≤ p.length ∧ p.length ≤ 128)) ∧
    passwordPolicyAccepts emailAndPassword "x" = false ∧
    signUpPolicyGate emailAndPassword ⟨"a@b.com", "A", "x"⟩ = SignUpOutcome.rejected :=
  ⟨rfl, rfl, fun _ => rfl, rfl, rfl⟩

/-- C10: getPort either throws or returns an integer in 0..65535 — never an
out-of-range value, and a NaN parse is turned into a throw — and an absent
PORT yields 5000. -/
theorem getPort_range_C10 (portEnv : Option String) :
    ((∃ m, getPort portEnv = Except.error m) ∨
      (∃ n, getPort portEnv = Except.ok n ∧ 0 ≤ n ∧ n ≤ 65535)) ∧
    (∀ n, getPort portEnv = Except.ok n → 0 ≤ n ∧ n ≤ 65535) ∧
    getPort none = Except.ok 5000 := by
  have key : ∀ n, getPort portEnv = Except.ok n → 0 ≤ n ∧ n ≤ 65535 := by
    intro n hn
    unfold getPort at hn
    cases hp : jsParseInt10 (jsOr portEnv "5000") with
    | none =>
        simp only [hp] at hn
        exact Except.noConfusion hn
    | some p =>
        simp only [hp] at hn
        by_cases hc : p < 0 ∨ p > 65535
        · rw [if_pos hc] at hn
          exact Except.noConfusion hn
        · rw [if_neg hc] at hn
          cases hn
          push_neg at hc
          exact ⟨hc.1, hc.2⟩
  refine ⟨?_, key, rfl⟩
  cases hg : getPort portEnv with
  | error m => exact Or.inl ⟨m, rfl⟩
  | ok n => exact Or.inr ⟨n, rfl, key n hg⟩

end ExpressApp
